import Mathlib

/-!
Verification development for the django-ninja-crud test-matrix engine.

The repository declares, per endpoint, component sets (path parameters,
headers, payloads) partitioned into expectation categories, expands each
declared endpoint-test block into one runnable test per category, dispatches
each scenario and asserts the outcome.  The definitions below embed the data
model and operations of the source files (`ninja_crud/testing/views/
create_model_view_test.py`, `ninja_crud/tests/test_partial_update.py`,
`ninja_crud/views/viewset.py`).  Parts of the engine that exist in the
repository but are only referenced by these files (the `ViewTestManager`
scenario builder, the `TestUpdateModelView` base class, the test-case
metaclass) are modelled from the specification, as marked in their doc
comments.
-/

namespace NinjaCrud

/-- Expectation categories used by the request component sets
(`Payloads` use `ok/bad_request/conflict`, `Headers` use
`ok/unauthorized/forbidden`, `PathParameters` use `ok/not_found`). -/
inductive Category where
  | ok
  | bad_request
  | conflict
  | unauthorized
  | forbidden
  | not_found
deriving DecidableEq, Repr, Fintype

/-- The three request dimensions a scenario can vary. -/
inductive Dimension where
  | pathParameters
  | headers
  | payloads
deriving DecidableEq, Repr, Fintype

/-- Modelled from the spec: the declared `ComponentSet`s of one endpoint test,
one list of declared categories per dimension (`ok` is mandatory; an
undeclared dimension is represented by the singleton list `[ok]`). -/
structure ComponentSets where
  pathParameters : List Category
  headers : List Category
  payloads : List Category
deriving DecidableEq, Repr

/-- The declared category list of one dimension. -/
def ComponentSets.catsOf (cs : ComponentSets) : Dimension → List Category
  | .pathParameters => cs.pathParameters
  | .headers => cs.headers
  | .payloads => cs.payloads

/-- A request scenario: the category each dimension is held at, the expected
outcome category, and the dimension under test (`none` for the all-`ok`
success scenario). -/
structure Scenario where
  pathCat : Category
  headerCat : Category
  payloadCat : Category
  expectedCategory : Category
  dimensionUnderTest : Option Dimension
deriving DecidableEq, Repr

/-- The category a scenario holds a given dimension at. -/
def Scenario.dimCat (s : Scenario) : Dimension → Category
  | .pathParameters => s.pathCat
  | .headers => s.headerCat
  | .payloads => s.payloadCat

/-- The scenario varying dimension `d` at category `c` while holding every
other dimension at `ok`. -/
def mkScenario (d : Dimension) (c : Category) : Scenario where
  pathCat := if d = .pathParameters then c else .ok
  headerCat := if d = .headers then c else .ok
  payloadCat := if d = .payloads then c else .ok
  expectedCategory := c
  dimensionUnderTest := some d

/-- The all-`ok` success scenario. -/
def okScenario : Scenario where
  pathCat := .ok
  headerCat := .ok
  payloadCat := .ok
  expectedCategory := .ok
  dimensionUnderTest := none

/-- Modelled from the spec: the scenarios the matrix builder generates for one
dimension — one per declared non-`ok` category, in declaration order. -/
def scenariosFor (cs : ComponentSets) (d : Dimension) : List Scenario :=
  ((cs.catsOf d).filter (fun c => c ≠ Category.ok)).map (mkScenario d)

/-- Modelled from the spec: the full scenario matrix of one endpoint test —
the all-`ok` scenario plus, grouped by dimension in the fixed order
path parameters → headers → payloads, one scenario per declared non-`ok`
category. -/
def buildMatrix (cs : ComponentSets) : List Scenario :=
  okScenario ::
    (scenariosFor cs .pathParameters ++ scenariosFor cs .headers ++
      scenariosFor cs .payloads)

theorem mem_scenariosFor {cs : ComponentSets} {d : Dimension} {s : Scenario} :
    s ∈ scenariosFor cs d ↔
      ∃ c ∈ cs.catsOf d, c ≠ Category.ok ∧ s = mkScenario d c := by
  simp only [scenariosFor, List.mem_map, List.mem_filter, decide_eq_true_eq]
  constructor
  · rintro ⟨c, ⟨hc, hne⟩, rfl⟩
    exact ⟨c, hc, hne, rfl⟩
  · rintro ⟨c, hc, hne, rfl⟩
    exact ⟨c, ⟨hc, hne⟩, rfl⟩

theorem mem_buildMatrix {cs : ComponentSets} {s : Scenario} :
    s ∈ buildMatrix cs ↔
      s = okScenario ∨
        ∃ d, ∃ c ∈ cs.catsOf d, c ≠ Category.ok ∧ s = mkScenario d c := by
  simp only [buildMatrix, List.mem_cons, List.mem_append, mem_scenariosFor]
  constructor
  · rintro (rfl | ((h | h) | h))
    · exact Or.inl rfl
    · exact Or.inr ⟨.pathParameters, h⟩
    · exact Or.inr ⟨.headers, h⟩
    · exact Or.inr ⟨.payloads, h⟩
  · rintro (rfl | ⟨d, hd⟩)
    · exact Or.inl rfl
    · cases d
      · exact Or.inr (Or.inl (Or.inl hd))
      · exact Or.inr (Or.inl (Or.inr hd))
      · exact Or.inr (Or.inr hd)

theorem length_filter_ne_ok {l : List Category} (hnd : l.Nodup)
    (hm : Category.ok ∈ l) :
    (l.filter (fun c => c ≠ Category.ok)).length = l.length - 1 := by
  induction l with
  | nil => cases hm
  | cons x xs ih =>
    by_cases hx : x = Category.ok
    · subst hx
      have hnotin : Category.ok ∉ xs := (List.nodup_cons.mp hnd).1
      have hfix : xs.filter (fun c => c ≠ Category.ok) = xs :=
        List.filter_eq_self.mpr (by
          intro a ha
          simp only [ne_eq, decide_eq_true_eq]
          intro hcontra
          exact hnotin (hcontra ▸ ha))
      simp [List.filter_cons, hfix]
      intro a ha hcontra
      exact hnotin (hcontra ▸ ha)
    · have hx' : Category.ok ∈ xs := by
        rcases List.mem_cons.mp hm with h | h
        · exact absurd h.symm hx
        · exact h
      have ih' := ih (List.nodup_cons.mp hnd).2 hx'
      have hlen : 1 ≤ xs.length := List.length_pos_of_mem hx'
      have hpx : (decide (x ≠ Category.ok)) = true := by simpa using hx
      rw [List.filter_cons, if_pos hpx]
      simp only [List.length_cons, ih']
      omega

theorem nodup_scenariosFor {cs : ComponentSets} {d : Dimension}
    (h : (cs.catsOf d).Nodup) : (scenariosFor cs d).Nodup := by
  refine List.Nodup.map ?_ (h.filter _)
  intro a b hab
  have hexp : (mkScenario d a).expectedCategory = (mkScenario d b).expectedCategory := by
    rw [hab]
  simpa [mkScenario] using hexp

theorem disjoint_scenariosFor {cs : ComponentSets} {d d' : Dimension}
    (h : d ≠ d') : ∀ s ∈ scenariosFor cs d, s ∉ scenariosFor cs d' := by
  intro s hs hs'
  rcases mem_scenariosFor.mp hs with ⟨c, _, _, rfl⟩
  rcases mem_scenariosFor.mp hs' with ⟨c', _, _, heq⟩
  have hdim := congrArg Scenario.dimensionUnderTest heq
  simp only [mkScenario, Option.some.injEq] at hdim
  exact h hdim

theorem okScenario_not_mem_scenariosFor {cs : ComponentSets} {d : Dimension} :
    okScenario ∉ scenariosFor cs d := by
  intro h
  rcases mem_scenariosFor.mp h with ⟨c, _, _, heq⟩
  have hdim := congrArg Scenario.dimensionUnderTest heq
  simp [okScenario, mkScenario] at hdim

/-- C1: for every endpoint test with declared `ComponentSet`s (each dimension
declaring `ok` and no duplicate categories), the matrix builder generates
exactly one scenario per declared non-`ok` category plus exactly one all-`ok`
success scenario, with no duplicates: the total count equals
`1 + Σ over dimensions (|categories(dimension)| - 1)`. -/
theorem scenario_matrix_count_and_nodup (cs : ComponentSets)
    (hok : ∀ d, Category.ok ∈ cs.catsOf d)
    (hnd : ∀ d, (cs.catsOf d).Nodup) :
    (buildMatrix cs).length =
        1 + ((cs.catsOf .pathParameters).length - 1)
          + ((cs.catsOf .headers).length - 1)
          + ((cs.catsOf .payloads).length - 1) ∧
      (buildMatrix cs).Nodup := by
  constructor
  · simp only [buildMatrix, List.length_cons, List.length_append, scenariosFor,
      List.length_map]
    rw [length_filter_ne_ok (hnd .pathParameters) (hok .pathParameters),
      length_filter_ne_ok (hnd .headers) (hok .headers),
      length_filter_ne_ok (hnd .payloads) (hok .payloads)]
    omega
  · refine List.nodup_cons.mpr ⟨?_, ?_⟩
    · simp only [List.mem_append]
      rintro ((h | h) | h) <;> exact okScenario_not_mem_scenariosFor h
    · refine List.Nodup.append (List.Nodup.append ?_ ?_ ?_) ?_ ?_
      · exact nodup_scenariosFor (hnd .pathParameters)
      · exact nodup_scenariosFor (hnd .headers)
      · exact disjoint_scenariosFor (by simp)
      · exact nodup_scenariosFor (hnd .payloads)
      · intro s hs hs'
        rcases List.mem_append.mp hs with h | h
        · exact disjoint_scenariosFor (by simp) s h hs'
        · exact disjoint_scenariosFor (by simp) s h hs'

/-- The component sets declared by the user-views create test of the test
application: `ok` path parameters only, all three header categories, and
`ok/bad_request/conflict` payloads. -/
def exampleComponentSets : ComponentSets where
  pathParameters := [.ok, .not_found]
  headers := [.ok, .unauthorized, .forbidden]
  payloads := [.ok, .bad_request, .conflict]

/-- Witness for C1 at a concrete declaration: the matrix has
`1 + 1 + 2 + 2 = 6` pairwise distinct scenarios. -/
theorem scenario_matrix_count_and_nodup_witness :
    ((∀ d, Category.ok ∈ exampleComponentSets.catsOf d) ∧
        (∀ d, (exampleComponentSets.catsOf d).Nodup)) ∧
      ((buildMatrix exampleComponentSets).length =
          1 + ((exampleComponentSets.catsOf .pathParameters).length - 1)
            + ((exampleComponentSets.catsOf .headers).length - 1)
            + ((exampleComponentSets.catsOf .payloads).length - 1) ∧
        (buildMatrix exampleComponentSets).Nodup) :=
  ⟨⟨by decide, by decide⟩,
    scenario_matrix_count_and_nodup exampleComponentSets (by decide) (by decide)⟩

/-- C2: every generated non-`ok` scenario varies exactly one dimension — the
dimension under test carries the scenario's expected category and every other
dimension is held at `ok`, so no scenario combines two non-`ok` categories. -/
theorem nonok_scenario_varies_single_dimension (cs : ComponentSets) (s : Scenario)
    (hs : s ∈ buildMatrix cs) (hne : s.expectedCategory ≠ Category.ok) :
    ∃ d, s.dimensionUnderTest = some d ∧
      s.dimCat d = s.expectedCategory ∧
      ∀ d', d' ≠ d → s.dimCat d' = Category.ok := by
  rcases mem_buildMatrix.mp hs with rfl | ⟨d, c, _, _, rfl⟩
  · exact absurd rfl hne
  · refine ⟨d, rfl, ?_, ?_⟩
    · cases d <;> simp [mkScenario, Scenario.dimCat]
    · intro d' hd'
      cases d <;> cases d' <;> simp_all [mkScenario, Scenario.dimCat]

/-- Witness for C2 at the payload `bad_request` scenario of the example
component sets. -/
theorem nonok_scenario_varies_single_dimension_witness :
    ((mkScenario .payloads .bad_request ∈ buildMatrix exampleComponentSets) ∧
        (mkScenario .payloads .bad_request).expectedCategory ≠ Category.ok) ∧
      ∃ d, (mkScenario .payloads .bad_request).dimensionUnderTest = some d ∧
        (mkScenario .payloads .bad_request).dimCat d =
          (mkScenario .payloads .bad_request).expectedCategory ∧
        ∀ d', d' ≠ d → (mkScenario .payloads .bad_request).dimCat d' = Category.ok :=
  ⟨⟨by decide, by decide⟩,
    nonok_scenario_varies_single_dimension exampleComponentSets _
      (by decide) (by decide)⟩

/-- Modelled from the spec: the status code the `ViewTestManager` asserts for
a scenario — the endpoint kind's success status for `ok`, otherwise the fixed
conventional code of the scenario's expected category, irrespective of which
dimension was varied. -/
def scenarioExpectedStatus (successStatus : Nat) (s : Scenario) : Nat :=
  match s.expectedCategory with
  | .ok => successStatus
  | .bad_request => 400
  | .conflict => 409
  | .unauthorized => 401
  | .forbidden => 403
  | .not_found => 404

/-- C3: for every non-`ok` scenario the asserted status is the fixed total
category→status mapping (`bad_request→400, conflict→409, unauthorized→401,
forbidden→403, not_found→404`), and two scenarios with the same expected
category are asserted against the same status regardless of the dimension
varied. -/
theorem nonok_status_mapping_total_fixed (successStatus : Nat) (s : Scenario) :
    (s.expectedCategory = Category.bad_request →
        scenarioExpectedStatus successStatus s = 400) ∧
      (s.expectedCategory = Category.conflict →
        scenarioExpectedStatus successStatus s = 409) ∧
      (s.expectedCategory = Category.unauthorized →
        scenarioExpectedStatus successStatus s = 401) ∧
      (s.expectedCategory = Category.forbidden →
        scenarioExpectedStatus successStatus s = 403) ∧
      (s.expectedCategory = Category.not_found →
        scenarioExpectedStatus successStatus s = 404) ∧
      (∀ s' : Scenario, s'.expectedCategory = s.expectedCategory →
        scenarioExpectedStatus successStatus s' =
          scenarioExpectedStatus successStatus s) := by
  refine ⟨?_, ?_, ?_, ?_, ?_, ?_⟩ <;> intro h
  · simp [scenarioExpectedStatus, h]
  · simp [scenarioExpectedStatus, h]
  · simp [scenarioExpectedStatus, h]
  · simp [scenarioExpectedStatus, h]
  · simp [scenarioExpectedStatus, h]
  · intro h'
    simp only [scenarioExpectedStatus, h']

/-- Witness for C3: the `bad_request` payload scenario of a create test
(success status 201) is asserted against 400, and a `bad_request` header-less
scenario varying a different dimension is asserted against the same status. -/
theorem nonok_status_mapping_total_fixed_witness :
    ((mkScenario .payloads .bad_request).expectedCategory = Category.bad_request ∧
        scenarioExpectedStatus 201 (mkScenario .payloads .bad_request) = 400) ∧
      ((mkScenario .pathParameters .bad_request).expectedCategory =
          (mkScenario .payloads .bad_request).expectedCategory ∧
        scenarioExpectedStatus 201 (mkScenario .pathParameters .bad_request) =
          scenarioExpectedStatus 201 (mkScenario .payloads .bad_request)) :=
  ⟨⟨by decide,
      (nonok_status_mapping_total_fixed 201 (mkScenario .payloads .bad_request)).1
        (by decide)⟩,
    ⟨by decide,
      (nonok_status_mapping_total_fixed 201
            (mkScenario .payloads .bad_request)).2.2.2.2.2
        (mkScenario .pathParameters .bad_request) (by decide)⟩⟩

/-- A primitive JSON value appearing in a serialized response body. -/
inductive JPrim where
  | num (n : Int)
  | str (s : String)
deriving DecidableEq, Repr

/-- A flat JSON object, as produced by `json.loads` on a serialized body:
an association list from keys to primitive values. -/
abbrev JObj := List (String × JPrim)

/-- One side of `assertDictEqual`: every key of `a` maps to the same value
in `b`. -/
def dictSub (a b : JObj) : Bool :=
  a.all (fun kv => b.lookup kv.1 == some kv.2)

/-- `assertDictEqual`: the two objects agree key for key in both directions. -/
def dictEq (a b : JObj) : Bool :=
  dictSub a b && dictSub b a

/-- A persisted model record: its primary key plus its serializable state. -/
structure ModelRecord where
  id : JPrim
  fields : JObj
deriving DecidableEq, Repr

/-- The errors `_get_expected_output` can raise before any equality
assertion: `KeyError` from `content["id"]`, and Django's
`DoesNotExist`/`MultipleObjectsReturned` from `objects.get`. -/
inductive LookupError where
  | keyError
  | doesNotExist
  | multipleObjectsReturned
deriving DecidableEq, Repr

/-- `model_class.objects.get(id=i)`: the unique persisted record with the
given id; raises when none (or several) match. -/
def objectsGet (db : List ModelRecord) (i : JPrim) : Except LookupError ModelRecord :=
  match db.filter (fun m => m.id == i) with
  | [] => .error .doesNotExist
  | [m] => .ok m
  | _ :: _ :: _ => .error .multipleObjectsReturned

/-- `CreateModelViewTest._get_expected_output`: reads `content["id"]` from
the parsed response body, re-fetches the created record by that id via
`objects.get`, and re-serializes it through the declared response-body
schema. -/
def getExpectedOutput (schema : ModelRecord → JObj) (db : List ModelRecord)
    (content : JObj) : Except LookupError JObj :=
  match content.lookup "id" with
  | none => .error .keyError
  | some i => (objectsGet db i).map schema

/-- Outcome of running a success-assertion callback. -/
inductive TestOutcome where
  | passed
  | failed
  | errored (e : LookupError)
deriving DecidableEq, Repr

/-- `CreateModelViewTest.on_successful_request`: parses the response content,
derives the expected output through `_get_expected_output`, and asserts dict
equality of the actual and expected outputs. -/
def onSuccessfulRequest (schema : ModelRecord → JObj) (db : List ModelRecord)
    (content : JObj) : TestOutcome :=
  match getExpectedOutput schema db content with
  | .error e => .errored e
  | .ok expected => if dictEq content expected then .passed else .failed

/-- `http.HTTPStatus.CREATED`, the status `test_create_model_ok` passes to
`ViewTestManager.test_view_ok`. -/
def createModelOkExpectedStatus : Nat := 201

/-- C4: the create `ok` scenario expects status 201, and the success verifier
passes exactly when the response body's returned identity re-fetches a
persisted record whose re-serialization through the response-body schema
equals the response body key for key. -/
theorem create_ok_status_and_success_verifier (schema : ModelRecord → JObj)
    (db : List ModelRecord) (content : JObj) :
    createModelOkExpectedStatus = 201 ∧
      (onSuccessfulRequest schema db content = .passed ↔
        ∃ i m, content.lookup "id" = some i ∧ objectsGet db i = .ok m ∧
          dictEq content (schema m) = true) := by
  refine ⟨rfl, ?_⟩
  unfold onSuccessfulRequest getExpectedOutput
  cases hlk : content.lookup "id" with
  | none => simp
  | some i =>
    cases hget : objectsGet db i with
    | error e => simp [hget, Except.map]
    | ok m =>
      simp only [hget, Except.map, Option.some.injEq]
      constructor
      · intro hpass
        by_cases hd : dictEq content (schema m) = true
        · exact ⟨i, m, rfl, hget, hd⟩
        · simp [hd] at hpass
      · rintro ⟨i', m', hi, hm, hd⟩
        cases hi
        rw [hget] at hm
        cases hm
        simp [hd]

/-- C9: whenever the success response body lacks an `"id"` key, or its id
matches no persisted record, the success verifier aborts with a lookup error
before any equality assertion. -/
theorem success_verifier_requires_persisted_id (schema : ModelRecord → JObj)
    (db : List ModelRecord) (content : JObj)
    (h : content.lookup "id" = none ∨
      ∀ i, content.lookup "id" = some i →
        db.filter (fun m => m.id == i) = []) :
    ∃ e, onSuccessfulRequest schema db content = .errored e := by
  unfold onSuccessfulRequest getExpectedOutput
  cases hlk : content.lookup "id" with
  | none => exact ⟨.keyError, rfl⟩
  | some i =>
    rcases h with h | h
    · rw [hlk] at h
      cases h
    · have hfil := h i hlk
      refine ⟨.doesNotExist, ?_⟩
      simp [objectsGet, hfil, Except.map]

/-- Witness for C9: a response body without an `"id"` key makes the verifier
abort with a lookup error. -/
theorem success_verifier_requires_persisted_id_witness :
    (([("title", JPrim.str "dept-A")] : JObj).lookup "id" = none ∨
        ∀ i, ([("title", JPrim.str "dept-A")] : JObj).lookup "id" = some i →
          ([] : List ModelRecord).filter (fun m => m.id == i) = []) ∧
      ∃ e, onSuccessfulRequest (fun m => m.fields) [] [("title", JPrim.str "dept-A")] =
        .errored e :=
  ⟨Or.inl (by decide),
    success_verifier_requires_persisted_id (fun m => m.fields) []
      [("title", JPrim.str "dept-A")] (Or.inl (by decide))⟩

/-- A simulated HTTP response: status code and parsed body. -/
structure Response where
  status : Nat
  content : JObj
deriving DecidableEq, Repr

/-- An assertion a completion callback can perform on the response or the
resolved inputs. -/
inductive Assertion where
  | dictEqual (actual expected : JObj)
deriving DecidableEq, Repr

/-- `CreateModelViewTest.on_failed_request`: the method body is `pass` — it
performs no assertion on the response body or on the resolved inputs. -/
def onFailedRequest (response : Response)
    (pathParameters queryParameters headers payload : JObj) : List Assertion :=
  []

/-- Modelled from the spec: the `ViewTestManager` check of one non-`ok`
scenario — it asserts only the status code against the category's
conventional code, then invokes `on_failed_request` as the completion
callback. -/
def runFailedScenario (successStatus : Nat) (s : Scenario) (response : Response)
    (pathParameters queryParameters headers payload : JObj) :
    Bool × List Assertion :=
  (response.status == scenarioExpectedStatus successStatus s,
    onFailedRequest response pathParameters queryParameters headers payload)

/-- C5: for every non-`ok` scenario only the status code is asserted — the
failure callback performs no assertion at all, and two responses with the
same status (whatever their bodies, and whatever the resolved inputs) yield
the same verdict and the same (empty) assertion list. -/
theorem failed_request_asserts_only_status (successStatus : Nat) (s : Scenario)
    (status : Nat) (body bodyAlt : JObj)
    (p q hd pl pAlt qAlt hdAlt plAlt : JObj) :
    onFailedRequest ⟨status, body⟩ p q hd pl = [] ∧
      runFailedScenario successStatus s ⟨status, body⟩ p q hd pl =
        runFailedScenario successStatus s ⟨status, bodyAlt⟩ pAlt qAlt hdAlt plAlt :=
  ⟨rfl, rfl⟩

/-- Modelled from the spec: the `PartialUpdateModelView` endpoint applying a
partial payload to a record's fields — fields named in the payload take the
payload's value, fields absent from the payload are left unchanged. -/
def applyPartialUpdate (record payload : JObj) : JObj :=
  record.map (fun kv => (kv.1, (payload.lookup kv.1).getD kv.2))

/-- Modelled from the spec: the expected object the PartialUpdate success
verifier compares against — the fields present in the payload overlaid on all
previously-set fields of the pre-dispatch snapshot, not the payload alone. -/
def partialUpdateExpected (snapshot payload : JObj) : JObj :=
  applyPartialUpdate snapshot payload

theorem lookup_applyPartialUpdate (record payload : JObj) (k : String) :
    (applyPartialUpdate record payload).lookup k =
      (record.lookup k).map (fun v => (payload.lookup k).getD v) := by
  induction record with
  | nil => rfl
  | cons kv tl ih =>
    simp only [applyPartialUpdate, List.map_cons, List.lookup] at *
    cases hk : (k == kv.1) with
    | true =>
      have : k = kv.1 := eq_of_beq hk
      simp [this]
    | false => simpa using ih

/-- C6: a partial update leaves fields absent from the payload unchanged
(`{a:1,b:2}` updated with `{b:3}` gives `{a:1,b:3}`), and the success
verifier's expected object — payload fields overlaid on the previously-set
fields — matches the post-update record, while naively comparing the payload
against the full record fails. -/
theorem partial_update_preserves_unset_fields (record payload : JObj)
    (k : String) (habsent : payload.lookup k = none) :
    (applyPartialUpdate record payload).lookup k = record.lookup k ∧
      applyPartialUpdate [("a", JPrim.num 1), ("b", JPrim.num 2)]
          [("b", JPrim.num 3)] =
        [("a", JPrim.num 1), ("b", JPrim.num 3)] ∧
      dictEq (applyPartialUpdate [("a", JPrim.num 1), ("b", JPrim.num 2)]
            [("b", JPrim.num 3)])
          (partialUpdateExpected [("a", JPrim.num 1), ("b", JPrim.num 2)]
            [("b", JPrim.num 3)]) = true ∧
      dictEq (applyPartialUpdate [("a", JPrim.num 1), ("b", JPrim.num 2)]
            [("b", JPrim.num 3)])
          [("b", JPrim.num 3)] = false := by
  refine ⟨?_, by decide, by decide, by decide⟩
  rw [lookup_applyPartialUpdate, habsent]
  cases record.lookup k <;> rfl

/-- Witness for C6 at the spec's own example: the field `a` is absent from
the payload `{b:3}` and survives the update. -/
theorem partial_update_preserves_unset_fields_witness :
    ([("b", JPrim.num 3)] : JObj).lookup "a" = none ∧
      (applyPartialUpdate [("a", JPrim.num 1), ("b", JPrim.num 2)]
            [("b", JPrim.num 3)]).lookup "a" =
        ([("a", JPrim.num 1), ("b", JPrim.num 2)] : JObj).lookup "a" :=
  ⟨by decide,
    (partial_update_preserves_unset_fields
        [("a", JPrim.num 1), ("b", JPrim.num 2)] [("b", JPrim.num 3)] "a"
        (by decide)).1⟩

/-- HTTP request methods used by the test adapters. -/
inductive HttpMethod where
  | get
  | post
  | put
  | patch
  | delete
deriving DecidableEq, Repr

/-- The assertion callbacks a model-view test wires into its request
composer (identified by name; `TestPartialUpdateModelView` inherits both
from `TestUpdateModelView` unchanged). -/
inductive AssertionCallback where
  | updateOnSuccessfulRequest
  | updateOnFailedRequest
deriving DecidableEq, Repr

/-- The configuration one endpoint-test class gives its request composer. -/
structure ModelViewTestConfig where
  requestMethod : HttpMethod
  successStatus : Nat
  dimensions : List Dimension
  pathParameterCategories : List Category
  payloadCategories : List Category
  headerCategories : List Category
  onSuccess : AssertionCallback
  onFailure : AssertionCallback
deriving DecidableEq, Repr

/-- Modelled from the spec: the configuration `TestUpdateModelView.__init__`
builds (its source is referenced by `test_partial_update.py` but not
included): path parameters and payloads required with their category sets,
headers optional, success status 200, a PUT request method, and its own
success/failure callbacks. -/
def testUpdateModelView : ModelViewTestConfig where
  requestMethod := .put
  successStatus := 200
  dimensions := [.pathParameters, .headers, .payloads]
  pathParameterCategories := [.ok, .not_found]
  payloadCategories := [.ok, .bad_request, .conflict]
  headerCategories := [.ok, .unauthorized, .forbidden]
  onSuccess := .updateOnSuccessfulRequest
  onFailure := .updateOnFailedRequest

/-- `TestPartialUpdateModelView.__init__`: calls the update test's
initializer unchanged and then replaces only the request method with
`request_partial_update_model`, which issues the call via `client.patch`. -/
def testPartialUpdateModelView : ModelViewTestConfig :=
  { testUpdateModelView with requestMethod := .patch }

/-- C7: the PartialUpdate endpoint test is identical to the Update endpoint
test in its dimensions, category sets, success status 200 and assertion
callbacks; it differs only in the HTTP verb, PATCH instead of PUT. -/
theorem partial_update_test_differs_only_in_verb :
    testPartialUpdateModelView.requestMethod = HttpMethod.patch ∧
      testUpdateModelView.requestMethod = HttpMethod.put ∧
      testPartialUpdateModelView.requestMethod ≠
        testUpdateModelView.requestMethod ∧
      testPartialUpdateModelView.successStatus =
        testUpdateModelView.successStatus ∧
      testUpdateModelView.successStatus = 200 ∧
      testPartialUpdateModelView.dimensions = testUpdateModelView.dimensions ∧
      testPartialUpdateModelView.pathParameterCategories =
        testUpdateModelView.pathParameterCategories ∧
      testPartialUpdateModelView.payloadCategories =
        testUpdateModelView.payloadCategories ∧
      testPartialUpdateModelView.headerCategories =
        testUpdateModelView.headerCategories ∧
      testPartialUpdateModelView.onSuccess = testUpdateModelView.onSuccess ∧
      testPartialUpdateModelView.onFailure = testUpdateModelView.onFailure := by
  decide

/-- The naming convention documented by `CreateModelViewTest`: each test
method of the view test is attached to the test case under the name
`<attributeName>__<testMethodName>`. -/
def generatedTestName (attrName methodName : String) : String :=
  attrName ++ "__" ++ methodName

/-- The test methods defined by `CreateModelViewTest`, in source order. -/
def createTestMethodNames : List String :=
  ["test_create_model_ok",
    "test_create_model_payloads_bad_request",
    "test_create_model_payloads_conflict",
    "test_create_model_headers_unauthorized",
    "test_create_model_headers_forbidden",
    "test_create_model_path_parameters_not_found"]

/-- The runnable test names a `CreateModelViewTest` block attached under
`attrName` expands into. -/
def expandedCreateTestNames (attrName : String) : List String :=
  createTestMethodNames.map (generatedTestName attrName)

/-- The naming convention the claim asserts:
`<endpointName>__<dimension>_<category>`. -/
def claimedTestName (attrName dimension category : String) : String :=
  attrName ++ "__" ++ dimension ++ "_" ++ category

/-- The success-test name the claim asserts: `<endpointName>__ok`. -/
def claimedOkTestName (attrName : String) : String :=
  attrName ++ "__ok"

/-- C8 counterexample: for the block `test_create_department_view`, neither
`test_create_department_view__headers_unauthorized` nor
`test_create_department_view__ok` is among the generated test names — the
generated names embed the full test-method name after the separator. -/
theorem test_naming_counterexample :
    claimedTestName "test_create_department_view" "headers" "unauthorized" ∉
        expandedCreateTestNames "test_create_department_view" ∧
      claimedOkTestName "test_create_department_view" ∉
        expandedCreateTestNames "test_create_department_view" := by
  decide

/-- C8 (amended): each declared endpoint-test block expands into one runnable
test per test method — one per scenario category plus the `ok` one — named
`<endpointName>__<testMethodName>`, e.g.
`<endpointName>__test_create_model_headers_unauthorized`. -/
theorem expanded_test_names_use_method_names (attrName : String) :
    expandedCreateTestNames attrName =
      [attrName ++ "__" ++ "test_create_model_ok",
        attrName ++ "__" ++ "test_create_model_payloads_bad_request",
        attrName ++ "__" ++ "test_create_model_payloads_conflict",
        attrName ++ "__" ++ "test_create_model_headers_unauthorized",
        attrName ++ "__" ++ "test_create_model_headers_forbidden",
        attrName ++ "__" ++ "test_create_model_path_parameters_not_found"] :=
  rfl

/-- An attribute value as seen by `register_routes`: either an
`AbstractModelView` instance (identified by its route) or any other value. -/
inductive AttrValue where
  | modelView (route : Nat)
  | other (value : Nat)
deriving DecidableEq, Repr

/-- A viewset class: its own attribute dictionary plus the attributes
inherited from its base classes (own attributes shadow inherited ones). -/
structure PyClass where
  own : List (String × AttrValue)
  inherited : List (String × AttrValue)
deriving DecidableEq, Repr

/-- `getattr(cls, name)`: the class's own attributes first, then the base
classes. -/
def PyClass.getattr (c : PyClass) (name : String) : Option AttrValue :=
  match c.own.lookup name with
  | some v => some v
  | none => c.inherited.lookup name

/-- `dir(cls)`: the alphabetically sorted, de-duplicated names of all
attributes, own and inherited. -/
def PyClass.dirNames (c : PyClass) : List String :=
  List.insertionSort (· ≤ ·)
    ((c.own.map Prod.fst ++ c.inherited.map Prod.fst).dedup)

/-- `ModelViewSet.register_routes`: iterates over `dir(cls)`, reads each
attribute with `getattr`, and registers exactly those attributes that are
`AbstractModelView` instances. -/
def registerRoutes (c : PyClass) : List Nat :=
  c.dirNames.filterMap (fun n =>
    match c.getattr n with
    | some (.modelView r) => some r
    | _ => none)

/-- The attribute names `register_routes` registers, in visit order. -/
def registeredNames (c : PyClass) : List String :=
  c.dirNames.filter (fun n =>
    match c.getattr n with
    | some (.modelView _) => true
    | _ => false)

theorem mem_map_fst_of_lookup {l : List (String × AttrValue)} {n : String}
    {v : AttrValue} (h : l.lookup n = some v) : n ∈ l.map Prod.fst := by
  induction l with
  | nil => cases h
  | cons kv tl ih =>
    simp only [List.lookup] at h
    cases hk : (n == kv.1) with
    | true =>
      exact List.mem_cons.mpr (Or.inl (eq_of_beq hk))
    | false =>
      rw [hk] at h
      exact List.mem_cons.mpr (Or.inr (ih h))

theorem mem_dirNames_of_getattr {c : PyClass} {n : String} {v : AttrValue}
    (h : c.getattr n = some v) : n ∈ c.dirNames := by
  have hmem : n ∈ c.own.map Prod.fst ++ c.inherited.map Prod.fst := by
    unfold PyClass.getattr at h
    cases hown : c.own.lookup n with
    | some w => exact List.mem_append.mpr (Or.inl (mem_map_fst_of_lookup hown))
    | none =>
      rw [hown] at h
      exact List.mem_append.mpr (Or.inr (mem_map_fst_of_lookup h))
  unfold PyClass.dirNames
  exact ((List.perm_insertionSort (· ≤ ·) _).mem_iff).mpr
    (List.mem_dedup.mpr hmem)

/-- C10: `register_routes` registers exactly the routes of the effective
`AbstractModelView` class attributes — own or inherited — and nothing else,
visiting attribute names in the sorted order produced by `dir(cls)`. -/
theorem register_routes_exactly_model_views (c : PyClass) :
    (∀ r, r ∈ registerRoutes c ↔
        ∃ n, c.getattr n = some (AttrValue.modelView r)) ∧
      (∀ n, n ∈ registeredNames c ↔
        ∃ r, c.getattr n = some (AttrValue.modelView r)) ∧
      (registeredNames c).Sorted (· ≤ ·) := by
  refine ⟨?_, ?_, ?_⟩
  · intro r
    rw [registerRoutes, List.mem_filterMap]
    constructor
    · rintro ⟨n, _, hf⟩
      refine ⟨n, ?_⟩
      cases hget : c.getattr n with
      | none => rw [hget] at hf; cases hf
      | some v =>
        cases v with
        | modelView r' =>
          rw [hget] at hf
          simp only [Option.some.injEq] at hf
          rw [hf]
        | other w => rw [hget] at hf; cases hf
    · rintro ⟨n, hget⟩
      exact ⟨n, mem_dirNames_of_getattr hget, by rw [hget]⟩
  · intro n
    rw [registeredNames, List.mem_filter]
    constructor
    · rintro ⟨_, hf⟩
      cases hget : c.getattr n with
      | none => rw [hget] at hf; cases hf
      | some v =>
        cases v with
        | modelView r => exact ⟨r, rfl⟩
        | other w => rw [hget] at hf; cases hf
    · rintro ⟨r, hget⟩
      exact ⟨mem_dirNames_of_getattr hget, by rw [hget]⟩
  · exact List.Pairwise.filter _
      (List.sorted_insertionSort (· ≤ ·) _)

end NinjaCrud
